import Mathlib

/-!
Shallow embedding of the Eventify backend (Express + Mongoose) booking,
authentication and review logic, together with proofs of the behavioural
claims about it.

Sources embedded:
* `src/index.js` — route handlers (`POST /events`, `PATCH /vevent/:id/venue-request`,
  `PUT /events/:id/status`, `POST /venues/:id/reviews`, `POST /events/:id/reviews`,
  `POST /register`, `POST /login`).
* `src/models/Ticket.js` — the Event schema's `pre('save')` validation hook.
* `src/middleware/auth.js` (unnamed part_000) — `auth` and `checkRole` middleware.
* `src/models/User.js`, `src/models/Venue.js` (unnamed parts 001/002) — document shapes.

External collaborators (mongoose persistence, jsonwebtoken, bcrypt) are modelled
as explicit pure functions: documents live in lists keyed by a `Nat` id, `save`
re-runs schema hooks then upserts, JWT signing is a deterministic MAC over the
payload, bcrypt hashing is a deterministic injective tagging of the password.
JavaScript `Number` fields are modelled as `Int` (ratings as `ℚ`, where division
matters); a missing field is `Option.none`, and the JS comparison semantics of a
missing numeric field (`NaN` compares false) is captured by `jsNumGt`/`jsNumLt`.
-/

namespace Eventify

/-- Roles, from the User schema enum `["user", "organizer", "venue_owner"]`. -/
inductive Role
  | user
  | organizer
  | venue_owner
  deriving DecidableEq, Repr

/-- Event status enum from the Event schema:
`["pending", "approved", "rejected", "completed", "cancelled"]`. -/
inductive EventStatus
  | pending
  | approved
  | rejected
  | completed
  | cancelled
  deriving DecidableEq, Repr

/-- The `venueRequest.status` enum from the Event schema: `["pending", "approved", "rejected"]`. -/
inductive VRStatus
  | pending
  | approved
  | rejected
  deriving DecidableEq, Repr

/-- The `action` a venue owner submits to `PATCH /vevent/:id/venue-request`
(`"approved"` or `"rejected"`). -/
inductive VRAction
  | approved
  | rejected
  deriving DecidableEq, Repr

/-- The stored status corresponding to a submitted action
(the JS assigns the action string directly to `venueRequest.status`). -/
def vrStatusOfAction : VRAction → VRStatus
  | .approved => VRStatus.approved
  | .rejected => VRStatus.rejected

/-- A review entry `{user, rating, comment, date}` as embedded in the
Venue and Event schemas. Ratings are modelled as `ℚ` because the venue
aggregate divides a sum of ratings by a count. -/
structure Review where
  user : Nat
  rating : ℚ
  comment : String
  date : Nat
  deriving DecidableEq, Repr

/-- A Venue document (`src/models/Venue.js`). -/
structure Venue where
  id : Nat
  owner : Nat
  name : String
  address : String
  capacity : Int
  pricePerDay : Int
  availability : Bool
  rating : ℚ
  reviews : List Review
  deriving DecidableEq, Repr

/-- The embedded `venueRequest` sub-document of an Event. -/
structure VenueRequest where
  status : VRStatus
  message : Option String
  response : Option String
  requestedAt : Nat
  respondedAt : Option Nat
  deriving DecidableEq, Repr

/-- An Event document (`src/models/Ticket.js`, second schema in the file). -/
structure EventDoc where
  id : Nat
  organizer : Nat
  venue : Nat
  title : String
  description : String
  eventDate : String
  eventTime : String
  expectedAttendees : Int
  status : EventStatus
  price : Int
  budget : Int
  category : String
  reviews : List Review
  venueRequest : VenueRequest
  deriving DecidableEq, Repr

/-- A User document (`src/models/User.js`). `password` stores the bcrypt hash. -/
structure UserDoc where
  id : Nat
  name : String
  email : String
  password : String
  role : Role
  venues : List Nat
  deriving DecidableEq, Repr

/-- Model of `VenueModel.findById(vid)` over the venue store. -/
def findVenue (venues : List Venue) (vid : Nat) : Option Venue :=
  venues.find? (fun v => v.id == vid)

/-- Model of `EventModel.findById(eid)` over the event store. -/
def findEvent (events : List EventDoc) (eid : Nat) : Option EventDoc :=
  events.find? (fun e => e.id == eid)

/-- Mongoose `save` persistence: replace the document with the same `_id`,
or insert it when new. -/
def upsertEvent (events : List EventDoc) (e : EventDoc) : List EventDoc :=
  if events.any (fun x => x.id == e.id) then
    events.map (fun x => if x.id == e.id then e else x)
  else
    events ++ [e]

/-- Mongoose `save` persistence for venues. -/
def upsertVenue (venues : List Venue) (v : Venue) : List Venue :=
  if venues.any (fun x => x.id == v.id) then
    venues.map (fun x => if x.id == v.id then v else x)
  else
    venues ++ [v]

/-- Errors thrown by the Event schema's `pre('save')` hook
(`src/models/Ticket.js` lines 145-178). The numeric payloads record the
values interpolated into the thrown error message. -/
inductive HookError
  | venueNotFound
  | venueNotAvailable
  | capacityExceeded (expected : Int) (capacity : Int)
  | insufficientBudget (budget : Int) (venueCost : Int)
  deriving DecidableEq, Repr

/-- Both validation sites fix the duration at one day: `const eventDuration = 1`. -/
def eventDuration : Int := 1

/-- The Event schema's `pre('save')` middleware (`src/models/Ticket.js`):
look up the venue referenced by the document, then check availability,
capacity and budget in that order, throwing on the first failure. -/
def eventPreSaveHook (venues : List Venue) (e : EventDoc) : Except HookError Unit :=
  match findVenue venues e.venue with
  | none => .error HookError.venueNotFound
  | some venue =>
    if venue.availability = false then
      .error HookError.venueNotAvailable
    else if e.expectedAttendees > venue.capacity then
      .error (HookError.capacityExceeded e.expectedAttendees venue.capacity)
    else if e.budget < venue.pricePerDay * eventDuration then
      .error (HookError.insufficientBudget e.budget (venue.pricePerDay * eventDuration))
    else
      .ok ()

/-- Saving an Event document: mongoose runs the `pre('save')` hook first;
if the hook errors the save fails and nothing is persisted, otherwise the
document is upserted into the store. -/
def saveEvent (venues : List Venue) (events : List EventDoc) (e : EventDoc) :
    Except HookError (List EventDoc) :=
  match eventPreSaveHook venues e with
  | .error err => .error err
  | .ok _ => .ok (upsertEvent events e)

/-- The incoming `POST /events` payload after the handler's `Number(...)`
coercions and `date`/`time` renames. A field absent from the request body is
`none`. -/
structure EventPayload where
  title : Option String
  description : Option String
  venue : Option Nat
  eventDate : Option String
  eventTime : Option String
  expectedAttendees : Option Int
  budget : Option Int
  category : Option String
  price : Option Int
  deriving DecidableEq, Repr

/-- JS truthiness of an optional string field: absent or empty is falsy. -/
def optStrTruthy : Option String → Bool
  | none => false
  | some s => s != ""

/-- JS truthiness of an optional numeric field: absent (`NaN` after
`Number(undefined)`) or zero is falsy. -/
def optNumTruthy : Option Int → Bool
  | none => false
  | some n => n != 0

/-- JS truthiness of an optional object-id field (a non-empty hex string
when present, hence truthy whenever present). -/
def optIdTruthy : Option Nat → Bool
  | none => false
  | some _ => true

/-- The `requiredFields` array of the `POST /events` handler, in source order. -/
def requiredFields : List String :=
  ["title", "description", "venue", "eventDate", "eventTime",
   "expectedAttendees", "budget", "category", "price"]

/-- Truthiness of the payload field named `f`, as tested by `!eventData[field]`. -/
def fieldTruthy (p : EventPayload) : String → Bool
  | "title" => optStrTruthy p.title
  | "description" => optStrTruthy p.description
  | "venue" => optIdTruthy p.venue
  | "eventDate" => optStrTruthy p.eventDate
  | "eventTime" => optStrTruthy p.eventTime
  | "expectedAttendees" => optNumTruthy p.expectedAttendees
  | "budget" => optNumTruthy p.budget
  | "category" => optStrTruthy p.category
  | "price" => optNumTruthy p.price
  | _ => true

/-- The list reported by `requiredFields.filter((field) => !eventData[field])`,
in the `Missing required fields` response detail. -/
def missingFields (p : EventPayload) : List String :=
  requiredFields.filter (fun f => !fieldTruthy p f)

/-- JS `a > b` where `a` may be `NaN` (absent): `NaN > b` is `false`. -/
def jsNumGt : Option Int → Int → Bool
  | none, _ => false
  | some a, b => a > b

/-- JS `a < b` where `a` may be `NaN` (absent): `NaN < b` is `false`. -/
def jsNumLt : Option Int → Int → Bool
  | none, _ => false
  | some a, b => a < b

/-- Rejections of the `POST /events` handler. The `Option Int` payloads
record exactly the values interpolated into the response details. -/
inductive CreateError
  | validationError (missing : List String)
  | venueNotFound
  | venueUnavailable
  | capacityExceeded (expected : Option Int) (capacity : Int)
  | insufficientBudget (budget : Option Int) (venueCost : Int)
  | serverError (e : HookError)
  deriving DecidableEq, Repr

/-- The venue-directed checks of the `POST /events` handler
(`src/index.js` lines 286-312), run after the required-field check:
venue lookup (`findById(undefined)` resolves to `null`, hence `none` maps to
`Venue not found`), availability, capacity, budget. Returns the venue on
success. -/
def routeVenueChecks (venues : List Venue) (p : EventPayload) : Except CreateError Venue :=
  match p.venue with
  | none => .error CreateError.venueNotFound
  | some vid =>
    match findVenue venues vid with
    | none => .error CreateError.venueNotFound
    | some venue =>
      if venue.availability = false then
        .error CreateError.venueUnavailable
      else if jsNumGt p.expectedAttendees venue.capacity then
        .error (CreateError.capacityExceeded p.expectedAttendees venue.capacity)
      else if jsNumLt p.budget (venue.pricePerDay * eventDuration) then
        .error (CreateError.insufficientBudget p.budget (venue.pricePerDay * eventDuration))
      else
        .ok venue

/-- The Event document built by `EventModel.create(eventData)` for a payload
that passed the required-field check (every field present). -/
def docOfPayload (organizer freshId : Nat) (p : EventPayload) (now : Nat) : EventDoc :=
  { id := freshId
    organizer := organizer
    venue := p.venue.getD 0
    title := p.title.getD ""
    description := p.description.getD ""
    eventDate := p.eventDate.getD ""
    eventTime := p.eventTime.getD ""
    expectedAttendees := p.expectedAttendees.getD 0
    status := EventStatus.pending
    price := p.price.getD 0
    budget := p.budget.getD 0
    category := p.category.getD ""
    reviews := []
    venueRequest :=
      { status := VRStatus.pending
        message := none
        response := none
        requestedAt := now
        respondedAt := none } }

/-- Outcome of the `POST /events` handler: the HTTP-level result plus the
event store after the request (unchanged on every error path). -/
structure CreateOut where
  result : Except CreateError EventDoc
  events : List EventDoc
  deriving Repr

/-- The `POST /events` handler (`src/index.js` lines 240-324), after the
`auth` and `checkRole(["organizer"])` middleware: required-field check,
venue checks, then `EventModel.create` (which re-runs the schema's
`pre('save')` hook before persisting; a hook error surfaces as the
500 `Failed to create event` response). -/
def createEventHandler (venues : List Venue) (events : List EventDoc)
    (organizer freshId : Nat) (p : EventPayload) (now : Nat) : CreateOut :=
  let missing := missingFields p
  if missing ≠ [] then
    { result := .error (CreateError.validationError missing), events := events }
  else
    match routeVenueChecks venues p with
    | .error e => { result := .error e, events := events }
    | .ok _ =>
      let doc := docOfPayload organizer freshId p now
      match saveEvent venues events doc with
      | .error err => { result := .error (CreateError.serverError err), events := events }
      | .ok events' => { result := .ok doc, events := events' }

/-- HTTP-level rejections shared by the event-mutating handlers:
404, 403, and the 500 produced by the surrounding `catch`. -/
inductive ApiError
  | notFound
  | forbidden
  | internal
  deriving DecidableEq, Repr

/-- Outcome of an event-mutating handler: the HTTP-level result plus the
event store after the request (unchanged on every error path). -/
structure HandlerOut where
  result : Except ApiError EventDoc
  events : List EventDoc
  deriving Repr

/-- The `PATCH /vevent/:id/venue-request` handler (`src/index.js` lines
595-622), after the `auth` middleware: look up the event (404 if absent);
reject 403 unless the actor has role `venue_owner` and the event's venue is
in the actor's `venues` list; otherwise set `venueRequest.status` to the
action, `venueRequest.response` to the message, `venueRequest.respondedAt`
to now, mirror `Event.status`, and save (a hook failure surfaces as the
500 `Failed to process venue request` response, persisting nothing).
The in-memory field assignments the handler performs before saving are
collected in `decidedEvent`. -/
def decidedEvent (event : EventDoc) (action : VRAction) (response : String)
    (now : Nat) : EventDoc :=
  { event with
    venueRequest :=
      { event.venueRequest with
        status := vrStatusOfAction action
        response := some response
        respondedAt := some now }
    status :=
      match action with
      | .approved => EventStatus.approved
      | .rejected => EventStatus.rejected }

def venueRequestHandler (venues : List Venue) (events : List EventDoc)
    (actor : UserDoc) (eventId : Nat) (action : VRAction) (response : String)
    (now : Nat) : HandlerOut :=
  match findEvent events eventId with
  | none => { result := .error ApiError.notFound, events := events }
  | some event =>
    if actor.role ≠ Role.venue_owner ∨ event.venue ∉ actor.venues then
      { result := .error ApiError.forbidden, events := events }
    else
      match saveEvent venues events (decidedEvent event action response now) with
      | .error _ => { result := .error ApiError.internal, events := events }
      | .ok events' => { result := .ok (decidedEvent event action response now), events := events' }

/-- The `PUT /events/:id/status` handler (`src/index.js` lines 398-419),
after `auth` and `checkRole(["venue_owner"])`: the handler dereferences
`event.venue` and `venue.owner` without null checks, so a missing event or
venue throws and the `catch` answers 500; a non-owner gets 403; otherwise
the status is assigned and the document saved (hook failure → 500, nothing
persisted). -/
def updateEventStatusHandler (venues : List Venue) (events : List EventDoc)
    (actor : UserDoc) (eventId : Nat) (status : EventStatus) : HandlerOut :=
  match findEvent events eventId with
  | none => { result := .error ApiError.internal, events := events }
  | some event =>
    match findVenue venues event.venue with
    | none => { result := .error ApiError.internal, events := events }
    | some venue =>
      if venue.owner ≠ actor.id then
        { result := .error ApiError.forbidden, events := events }
      else
        let event' : EventDoc := { event with status := status }
        match saveEvent venues events event' with
        | .error _ => { result := .error ApiError.internal, events := events }
        | .ok events' => { result := .ok event', events := events' }

/-- The `POST /events/:id/reviews` handler (`src/index.js` lines 448-464),
after `auth`: push `{user, rating, comment}` (date defaulted to now by the
schema) onto `event.reviews` and save. A missing event throws on
`event.reviews.push` and the `catch` answers 500; a hook failure on save
also answers 500, persisting nothing. -/
def addEventReviewHandler (venues : List Venue) (events : List EventDoc)
    (actor : Nat) (eventId : Nat) (rating : ℚ) (comment : String)
    (now : Nat) : HandlerOut :=
  match findEvent events eventId with
  | none => { result := .error ApiError.internal, events := events }
  | some event =>
    let event' : EventDoc :=
      { event with
        reviews := event.reviews ++ [{ user := actor, rating := rating, comment := comment, date := now }] }
    match saveEvent venues events event' with
    | .error _ => { result := .error ApiError.internal, events := events }
    | .ok events' => { result := .ok event', events := events' }

/-- Outcome of the venue-review handler: result plus the venue store after
the request. -/
structure VenueOut where
  result : Except ApiError Venue
  venues : List Venue
  deriving Repr

/-- The `POST /venues/:id/reviews` handler (`src/index.js` lines 424-446),
after `auth`: push `{user, rating, comment}` (date defaulted to now) onto
`venue.reviews`, recompute `venue.rating` as the sum of all reviews' ratings
(a `reduce` with initial value 0) divided by the review count, then save.
A missing venue throws on `venue.reviews.push` and the `catch` answers 500.
The Venue schema has no save hook, so the save always persists. -/
def addVenueReviewHandler (venues : List Venue) (actor : Nat) (venueId : Nat)
    (rating : ℚ) (comment : String) (now : Nat) : VenueOut :=
  match findVenue venues venueId with
  | none => { result := .error ApiError.internal, venues := venues }
  | some venue =>
    let reviews' := venue.reviews ++ [{ user := actor, rating := rating, comment := comment, date := now }]
    let totalRating : ℚ := reviews'.foldl (fun s r => s + r.rating) 0
    let venue' : Venue := { venue with reviews := reviews', rating := totalRating / reviews'.length }
    { result := .ok venue', venues := upsertVenue venues venue' }

/-- A decoded JWT: the claims the backend signs (`{userId, role}` plus the
expiry from `expiresIn: "7d"`) together with the attached signature. -/
structure Token where
  userId : Option Nat
  role : Role
  exp : Nat
  sig : Nat
  deriving DecidableEq, Repr

/-- Model of the HMAC the external `jsonwebtoken` library computes over the
payload with the process-wide secret: a deterministic function of the secret
and the claims. -/
def tokenMac (secret : Nat) (userId : Option Nat) (role : Role) (exp : Nat) : Nat :=
  let uidCode : Nat :=
    match userId with
    | none => 0
    | some u => u + 1
  let roleCode : Nat :=
    match role with
    | .user => 0
    | .organizer => 1
    | .venue_owner => 2
  secret + 1000003 * uidCode + 7 * roleCode + 1009 * exp

/-- Model of `jwt.sign({userId, role}, jwtSecret, {expiresIn: "7d"})`. -/
def jwtSign (secret : Nat) (userId : Option Nat) (role : Role) (exp : Nat) : Token :=
  { userId := userId, role := role, exp := exp, sig := tokenMac secret userId role exp }

/-- Rejections of `jwt.verify`: `JsonWebTokenError` for a bad signature,
`TokenExpiredError` for a valid signature past its expiry. -/
inductive VerifyError
  | invalidSignature
  | tokenExpired
  deriving DecidableEq, Repr

/-- Model of `jwt.verify(token, jwtSecret)`: the signature is checked first; a token
whose signature matches but whose expiry has passed (`now ≥ exp`) raises
`TokenExpiredError`; otherwise the decoded claims are returned. -/
def jwtVerify (secret : Nat) (t : Token) (now : Nat) : Except VerifyError Token :=
  if t.sig ≠ tokenMac secret t.userId t.role t.exp then
    .error VerifyError.invalidSignature
  else if t.exp ≤ now then
    .error VerifyError.tokenExpired
  else
    .ok t

/-- Rejections of the `auth` middleware (`src/middleware/auth.js`):
401 `Authentication required`, 401 `Invalid token`, 401 `Token expired`,
401 `User not found`. -/
inductive AuthError
  | unauthenticated
  | invalidToken
  | tokenExpired
  | userNotFound
  deriving DecidableEq, Repr

/-- The `auth` middleware (`src/middleware/auth.js` lines 6-45), at the
token level (`none` models a missing or non-Bearer Authorization header):
verify the token, mapping `JsonWebTokenError` to `Invalid token` and
`TokenExpiredError` to `Token expired`; reject a payload without a truthy
`userId`; look up the user and reject if absent; otherwise resolve the
identity. -/
def auth (users : List UserDoc) (secret : Nat) (now : Nat)
    (bearer : Option Token) : Except AuthError UserDoc :=
  match bearer with
  | none => .error AuthError.unauthenticated
  | some t =>
    match jwtVerify secret t now with
    | .error VerifyError.invalidSignature => .error AuthError.invalidToken
    | .error VerifyError.tokenExpired => .error AuthError.tokenExpired
    | .ok decoded =>
      match decoded.userId with
      | none => .error AuthError.invalidToken
      | some uid =>
        match users.find? (fun u => u.id == uid) with
        | none => .error AuthError.userNotFound
        | some u => .ok u

/-- The `checkRole(roles)` middleware factory (`src/middleware/auth.js`
lines 47-54): pass iff the resolved user's role is in the allow-list. -/
def checkRole (roles : List Role) (u : UserDoc) : Bool :=
  roles.contains u.role

/-- Model of the external bcrypt collaborator: a deterministic hash of the
password; `bcrypt.compare(p, h)` succeeds exactly when `h` hashes `p`. -/
def bcryptHash (password : String) : String :=
  "bcrypt$" ++ password

/-- Model of `bcrypt.compare(password, hashed)`. -/
def bcryptCompare (password hashed : String) : Bool :=
  hashed == bcryptHash password

/-- The `expiresIn: "7d"` lifetime in seconds. -/
def sevenDays : Nat := 7 * 24 * 60 * 60

/-- Rejection of `POST /register`: 400 `User already exists`. -/
inductive RegisterError
  | userExists
  deriving DecidableEq, Repr

/-- The `POST /register` handler (`src/index.js` lines 64-101): reject when
a user with the email already exists; otherwise store the user with the
hashed password and return a token signed over `{userId, role}` expiring in
seven days, together with the new store and the created user. -/
def register (users : List UserDoc) (freshId : Nat)
    (name email password : String) (role : Role) (secret : Nat) (now : Nat) :
    Except RegisterError (List UserDoc × Token × UserDoc) :=
  match users.find? (fun u => u.email == email) with
  | some _ => .error RegisterError.userExists
  | none =>
    let u : UserDoc :=
      { id := freshId, name := name, email := email
        password := bcryptHash password, role := role, venues := [] }
    let token := jwtSign secret (some freshId) role (now + sevenDays)
    .ok (users ++ [u], token, u)

/-- Rejections of `POST /login`: 400 `Email and password are required`,
401 `Invalid credentials`. -/
inductive LoginError
  | missingFields
  | invalidCredentials
  deriving DecidableEq, Repr

/-- The `POST /login` handler (`src/index.js` lines 103-134): reject when
email or password is falsy; look up the user by email (reject if absent);
compare the password against the stored bcrypt hash (reject on mismatch);
otherwise return a token signed over `{userId, role}` expiring in seven
days, together with the user. -/
def login (users : List UserDoc) (email password : String)
    (secret : Nat) (now : Nat) : Except LoginError (Token × UserDoc) :=
  if email == "" ∨ password == "" then
    .error LoginError.missingFields
  else
    match users.find? (fun u => u.email == email) with
    | none => .error LoginError.invalidCredentials
    | some u =>
      if bcryptCompare password u.password = false then
        .error LoginError.invalidCredentials
      else
        .ok (jwtSign secret (some u.id) u.role (now + sevenDays), u)

/-- Whether a validation result accepts (is not an error). -/
def exAccepts {ε α : Type} : Except ε α → Bool
  | .ok _ => true
  | .error _ => false

/-! ### Helper lemmas -/

/-- If the required-field check passes, every required field is truthy. -/
theorem fieldTruthy_of_missing_nil (p : EventPayload) (h : missingFields p = [])
    (f : String) (hf : f ∈ requiredFields) : fieldTruthy p f = true := by
  by_contra hne
  have hmem : f ∈ missingFields p :=
    List.mem_filter.mpr ⟨hf, by simp [Bool.eq_false_iff.mpr hne]⟩
  rw [h] at hmem
  exact absurd hmem (List.not_mem_nil f)

/-- A payload passing the required-field check has a venue id. -/
theorem venue_some_of_missing_nil (p : EventPayload) (h : missingFields p = []) :
    ∃ vid : Nat, p.venue = some vid := by
  have ht : fieldTruthy p "venue" = true :=
    fieldTruthy_of_missing_nil p h "venue" (by simp [requiredFields])
  simp only [fieldTruthy] at ht
  cases hv : p.venue with
  | none => rw [hv] at ht; simp [optIdTruthy] at ht
  | some vid => exact ⟨vid, rfl⟩

/-- A payload passing the required-field check has a (nonzero) expected
attendee count. -/
theorem expectedAttendees_some_of_missing_nil (p : EventPayload)
    (h : missingFields p = []) :
    ∃ ea : Int, p.expectedAttendees = some ea ∧ ea ≠ 0 := by
  have ht : fieldTruthy p "expectedAttendees" = true :=
    fieldTruthy_of_missing_nil p h "expectedAttendees" (by simp [requiredFields])
  simp only [fieldTruthy] at ht
  cases hv : p.expectedAttendees with
  | none => rw [hv] at ht; simp [optNumTruthy] at ht
  | some ea =>
    rw [hv] at ht
    refine ⟨ea, rfl, ?_⟩
    simpa [optNumTruthy] using ht

/-- A payload passing the required-field check has a (nonzero) budget. -/
theorem budget_some_of_missing_nil (p : EventPayload) (h : missingFields p = []) :
    ∃ b : Int, p.budget = some b ∧ b ≠ 0 := by
  have ht : fieldTruthy p "budget" = true :=
    fieldTruthy_of_missing_nil p h "budget" (by simp [requiredFields])
  simp only [fieldTruthy] at ht
  cases hv : p.budget with
  | none => rw [hv] at ht; simp [optNumTruthy] at ht
  | some b =>
    rw [hv] at ht
    refine ⟨b, rfl, ?_⟩
    simpa [optNumTruthy] using ht

/-- A found event carries the id it was looked up by. -/
theorem findEvent_id (events : List EventDoc) (eid : Nat) (e : EventDoc)
    (h : findEvent events eid = some e) : e.id = eid := by
  have := List.find?_some h
  simpa using this

/-- Replacing the matching documents of a list that contains one yields a
list whose first match is the replacement. -/
theorem find?_map_replace (e' : EventDoc) (l : List EventDoc)
    (h : l.any (fun x => x.id == e'.id) = true) :
    (l.map (fun x => if x.id == e'.id then e' else x)).find?
        (fun x => x.id == e'.id) = some e' := by
  induction l with
  | nil => simp at h
  | cons x xs ih =>
    rw [List.map_cons]
    by_cases hx : (x.id == e'.id) = true
    · rw [if_pos hx, List.find?_cons]
      simp
    · have hxs : xs.any (fun y => y.id == e'.id) = true := by
        rcases List.any_eq_true.mp h with ⟨y, hy, hpy⟩
        rcases List.mem_cons.mp hy with rfl | hy'
        · exact absurd hpy hx
        · exact List.any_eq_true.mpr ⟨y, hy', hpy⟩
      have hxf : (x.id == e'.id) = false := Bool.eq_false_iff.mpr hx
      rw [if_neg hx, List.find?_cons]
      simp only [hxf]
      exact ih hxs

/-- After saving a document whose id already occurs in the store, looking
that id up returns the saved document. -/
theorem findEvent_upsert (events : List EventDoc) (e' : EventDoc)
    (hmem : events.any (fun x => x.id == e'.id) = true) :
    findEvent (upsertEvent events e') e'.id = some e' := by
  unfold findEvent upsertEvent
  rw [if_pos hmem]
  exact find?_map_replace e' events hmem

/-- A successful save stores exactly the upserted document list. -/
theorem saveEvent_ok_eq (venues : List Venue) (events l : List EventDoc)
    (e : EventDoc) (h : saveEvent venues events e = .ok l) :
    l = upsertEvent events e := by
  unfold saveEvent at h
  split at h
  · exact absurd h (by simp)
  · simpa using h.symm

/-- The review-total `reduce` computes the sum of the ratings. -/
theorem foldl_rating_sum (l : List Review) (s : ℚ) :
    l.foldl (fun a r => a + r.rating) s = s + (l.map Review.rating).sum := by
  induction l generalizing s with
  | nil => simp
  | cons r rs ih =>
    simp only [List.foldl_cons, List.map_cons, List.sum_cons, ih]
    ring

/-- Appending to a list in which a predicate never held makes the appended
element the first match. -/
theorem find?_append_of_none {α : Type} (p : α → Bool) (l : List α) (a : α)
    (h : l.find? p = none) (ha : p a = true) :
    (l ++ [a]).find? p = some a := by
  induction l with
  | nil => simp [List.find?, ha]
  | cons x xs ih =>
    rw [List.find?_cons] at h
    cases hx : p x with
    | true => rw [hx] at h; simp at h
    | false =>
      rw [hx] at h
      simp only [List.cons_append, List.find?_cons, hx]
      exact ih h

/-! ### Claim theorems -/

/-- C1: an event-creation request that passes the required-field check and
targets an existing, available venue, but whose `expectedAttendees` exceeds
`venue.capacity`, is rejected with `CapacityExceeded` carrying both the
expected-attendees value and the capacity value, and the event store is
unchanged (no event document is created). -/
theorem capacity_exceeded_rejects_unchanged
    (venues : List Venue) (events : List EventDoc) (organizer freshId : Nat)
    (p : EventPayload) (now : Nat) (vid : Nat) (venue : Venue) (ea : Int)
    (hmiss : missingFields p = [])
    (hvid : p.venue = some vid)
    (hfind : findVenue venues vid = some venue)
    (havail : venue.availability = true)
    (hea : p.expectedAttendees = some ea)
    (hcap : ea > venue.capacity) :
    createEventHandler venues events organizer freshId p now =
      { result := .error (CreateError.capacityExceeded (some ea) venue.capacity)
        events := events } := by
  unfold createEventHandler routeVenueChecks
  simp [hmiss, hvid, hfind, havail, jsNumGt, hea, hcap]

/-- Witness for C1: the spec's scenario — capacity 100, 150 expected
attendees — is rejected with both values reported and the store unchanged. -/
theorem capacity_exceeded_rejects_unchanged_witness :
    createEventHandler
      [{ id := 1, owner := 2, name := "Hall", address := "Main St", capacity := 100,
         pricePerDay := 400, availability := true, rating := 0, reviews := [] }]
      [] 7 42
      { title := some "Expo", description := some "Big expo", venue := some 1,
        eventDate := some "2025-01-01", eventTime := some "10:00",
        expectedAttendees := some 150, budget := some 500,
        category := some "Conference", price := some 20 } 0 =
      { result := .error (CreateError.capacityExceeded (some 150) 100)
        events := [] } :=
  capacity_exceeded_rejects_unchanged
    [{ id := 1, owner := 2, name := "Hall", address := "Main St", capacity := 100,
       pricePerDay := 400, availability := true, rating := 0, reviews := [] }]
    [] 7 42
    { title := some "Expo", description := some "Big expo", venue := some 1,
      eventDate := some "2025-01-01", eventTime := some "10:00",
      expectedAttendees := some 150, budget := some 500,
      category := some "Conference", price := some 20 } 0
    1 _ 150 rfl rfl rfl rfl rfl (by decide)

/-- C2: an event-creation request that passes the required-field,
venue-existence, availability and capacity checks is rejected with
`InsufficientBudget` carrying the budget and the venue cost whenever
`budget < venue.pricePerDay * 1` (the duration is fixed at one day), with
the store unchanged; and an event is created only when
`budget ≥ venue.pricePerDay * 1`. -/
theorem insufficient_budget_rejects_unchanged
    (venues : List Venue) (events : List EventDoc) (organizer freshId : Nat)
    (p : EventPayload) (now : Nat) (vid : Nat) (venue : Venue) (b : Int)
    (hmiss : missingFields p = [])
    (hvid : p.venue = some vid)
    (hfind : findVenue venues vid = some venue)
    (havail : venue.availability = true)
    (hcapok : jsNumGt p.expectedAttendees venue.capacity = false)
    (hb : p.budget = some b) :
    (b < venue.pricePerDay * 1 →
      createEventHandler venues events organizer freshId p now =
        { result := .error (CreateError.insufficientBudget (some b) (venue.pricePerDay * 1))
          events := events }) ∧
    (∀ doc events',
      createEventHandler venues events organizer freshId p now =
        { result := .ok doc, events := events' } →
      b ≥ venue.pricePerDay * 1) := by
  have hrej : b < venue.pricePerDay * 1 →
      createEventHandler venues events organizer freshId p now =
        { result := .error (CreateError.insufficientBudget (some b) (venue.pricePerDay * 1))
          events := events } := by
    intro hlt
    have hlt' : b < venue.pricePerDay := by simpa using hlt
    unfold createEventHandler routeVenueChecks
    simp [hmiss, hvid, hfind, havail, hcapok, jsNumLt, hb, eventDuration, hlt']
  refine ⟨hrej, ?_⟩
  intro doc events' hok
  by_contra hge
  push_neg at hge
  rw [hrej hge] at hok
  simp at hok

/-- Witness for C2: the spec's scenario — price-per-day 400, budget 300 —
is rejected with both values reported; and the claim's creation bound
applies to this input. -/
theorem insufficient_budget_rejects_unchanged_witness :
    createEventHandler
      [{ id := 1, owner := 2, name := "Hall", address := "Main St", capacity := 100,
         pricePerDay := 400, availability := true, rating := 0, reviews := [] }]
      [] 7 42
      { title := some "Expo", description := some "Big expo", venue := some 1,
        eventDate := some "2025-01-01", eventTime := some "10:00",
        expectedAttendees := some 50, budget := some 300,
        category := some "Conference", price := some 20 } 0 =
      { result := .error (CreateError.insufficientBudget (some 300) (400 * 1))
        events := [] } :=
  (insufficient_budget_rejects_unchanged
    [{ id := 1, owner := 2, name := "Hall", address := "Main St", capacity := 100,
       pricePerDay := 400, availability := true, rating := 0, reviews := [] }]
    [] 7 42
    { title := some "Expo", description := some "Big expo", venue := some 1,
      eventDate := some "2025-01-01", eventTime := some "10:00",
      expectedAttendees := some 50, budget := some 300,
      category := some "Conference", price := some 20 } 0
    1 _ 300 rfl rfl rfl rfl rfl rfl).1 (by decide)

/-- C3: a venue-request transition on an existing event attempted by an
actor who is not both a `venue_owner` and the owner of the event's venue
(the venue id occurring in the actor's venue list) is rejected with
`Forbidden`, and the event store — hence `venueRequest.status` and the rest
of the event document — is unchanged. -/
theorem venue_request_forbidden_unchanged
    (venues : List Venue) (events : List EventDoc) (actor : UserDoc)
    (eventId : Nat) (action : VRAction) (response : String) (now : Nat)
    (event : EventDoc)
    (hfind : findEvent events eventId = some event)
    (hnot : ¬(actor.role = Role.venue_owner ∧ event.venue ∈ actor.venues)) :
    venueRequestHandler venues events actor eventId action response now =
      { result := .error ApiError.forbidden, events := events } := by
  have hcond : actor.role ≠ Role.venue_owner ∨ event.venue ∉ actor.venues := by
    tauto
  unfold venueRequestHandler
  simp only [hfind]
  rw [if_pos hcond]

/-- Witness for C3: owner A (venues `[5]`) attempts to approve a request
for an event held at venue 9 belonging to someone else — rejected with
`Forbidden`, store unchanged. -/
theorem venue_request_forbidden_unchanged_witness :
    venueRequestHandler []
      [{ id := 3, organizer := 7, venue := 9, title := "Gala", description := "d",
         eventDate := "2025-02-02", eventTime := "19:00", expectedAttendees := 10,
         status := EventStatus.pending, price := 5, budget := 100, category := "Party",
         reviews := [],
         venueRequest := { status := VRStatus.pending, message := none, response := none,
                           requestedAt := 0, respondedAt := none } }]
      { id := 11, name := "A", email := "a@x.io", password := "h", role := Role.venue_owner,
        venues := [5] }
      3 VRAction.approved "ok" 99 =
      { result := .error ApiError.forbidden
        events :=
          [{ id := 3, organizer := 7, venue := 9, title := "Gala", description := "d",
             eventDate := "2025-02-02", eventTime := "19:00", expectedAttendees := 10,
             status := EventStatus.pending, price := 5, budget := 100, category := "Party",
             reviews := [],
             venueRequest := { status := VRStatus.pending, message := none, response := none,
                               requestedAt := 0, respondedAt := none } }] } :=
  venue_request_forbidden_unchanged [] _
    { id := 11, name := "A", email := "a@x.io", password := "h", role := Role.venue_owner,
      venues := [5] }
    3 VRAction.approved "ok" 99 _ rfl (by decide)

/-- C4: a successful venue-request transition by the owning `venue_owner`
with an action in `{approved, rejected}` and a response message sets
`venueRequest.status` to the action, `venueRequest.response` to the
message, `venueRequest.respondedAt` to the current time, mirrors
`Event.status` to the same outcome, and persists the updated document. -/
theorem venue_request_transition_effect
    (venues : List Venue) (events : List EventDoc) (actor : UserDoc)
    (eventId : Nat) (action : VRAction) (msg : String) (now : Nat)
    (event e' : EventDoc) (events' : List EventDoc)
    (hfind : findEvent events eventId = some event)
    (hrole : actor.role = Role.venue_owner)
    (hown : event.venue ∈ actor.venues)
    (hres : venueRequestHandler venues events actor eventId action msg now =
      { result := .ok e', events := events' }) :
    e'.venueRequest.status = vrStatusOfAction action ∧
    e'.venueRequest.response = some msg ∧
    e'.venueRequest.respondedAt = some now ∧
    e'.status = (if action = VRAction.approved then EventStatus.approved
                 else EventStatus.rejected) ∧
    findEvent events' eventId = some e' := by
  unfold venueRequestHandler at hres
  simp only [hfind] at hres
  rw [if_neg (by push_neg; exact ⟨hrole, hown⟩)] at hres
  split at hres
  · simp at hres
  · rename_i events'' heq
    simp only [HandlerOut.mk.injEq, Except.ok.injEq] at hres
    obtain ⟨he', hev⟩ := hres
    subst he'
    subst hev
    have hid : event.id = eventId := findEvent_id events eventId event hfind
    have hmemE : event ∈ events := by
      unfold findEvent at hfind
      exact List.mem_of_find?_eq_some hfind
    refine ⟨rfl, rfl, rfl, ?_, ?_⟩
    · cases action <;> simp [decidedEvent]
    · have hany : events.any
          (fun x => x.id == (decidedEvent event action msg now).id) = true :=
        List.any_eq_true.mpr ⟨event, hmemE, by simp [decidedEvent]⟩
      have hup := findEvent_upsert events (decidedEvent event action msg now) hany
      have hupEq : events'' = upsertEvent events (decidedEvent event action msg now) :=
        saveEvent_ok_eq venues events events'' (decidedEvent event action msg now) heq
      rw [hupEq]
      have hdid : (decidedEvent event action msg now).id = eventId := hid
      rw [← hdid]
      exact hup

/-- Witness for C4: the owning venue owner approves a pending request; the
request records the approval, the response and the response time, the event
status mirrors to `approved`, and the decided document is persisted. -/
theorem venue_request_transition_effect_witness :
    (let ev : EventDoc :=
      { id := 3, organizer := 7, venue := 9, title := "Gala", description := "d",
        eventDate := "2025-02-02", eventTime := "19:00", expectedAttendees := 10,
        status := EventStatus.pending, price := 5, budget := 100, category := "Party",
        reviews := [],
        venueRequest := { status := VRStatus.pending, message := none, response := none,
                          requestedAt := 0, respondedAt := none } }
     let d : EventDoc := decidedEvent ev VRAction.approved "ok" 99
     d.venueRequest.status = vrStatusOfAction VRAction.approved ∧
     d.venueRequest.response = some "ok" ∧
     d.venueRequest.respondedAt = some 99 ∧
     d.status = (if VRAction.approved = VRAction.approved then EventStatus.approved
                 else EventStatus.rejected) ∧
     findEvent [d] 3 = some d) :=
  venue_request_transition_effect
    [{ id := 9, owner := 11, name := "Hall", address := "Main St", capacity := 100,
       pricePerDay := 40, availability := true, rating := 0, reviews := [] }]
    [{ id := 3, organizer := 7, venue := 9, title := "Gala", description := "d",
       eventDate := "2025-02-02", eventTime := "19:00", expectedAttendees := 10,
       status := EventStatus.pending, price := 5, budget := 100, category := "Party",
       reviews := [],
       venueRequest := { status := VRStatus.pending, message := none, response := none,
                         requestedAt := 0, respondedAt := none } }]
    { id := 11, name := "A", email := "a@x.io", password := "h",
      role := Role.venue_owner, venues := [9] }
    3 VRAction.approved "ok" 99
    { id := 3, organizer := 7, venue := 9, title := "Gala", description := "d",
      eventDate := "2025-02-02", eventTime := "19:00", expectedAttendees := 10,
      status := EventStatus.pending, price := 5, budget := 100, category := "Party",
      reviews := [],
      venueRequest := { status := VRStatus.pending, message := none, response := none,
                        requestedAt := 0, respondedAt := none } }
    (decidedEvent
      { id := 3, organizer := 7, venue := 9, title := "Gala", description := "d",
        eventDate := "2025-02-02", eventTime := "19:00", expectedAttendees := 10,
        status := EventStatus.pending, price := 5, budget := 100, category := "Party",
        reviews := [],
        venueRequest := { status := VRStatus.pending, message := none, response := none,
                          requestedAt := 0, respondedAt := none } }
      VRAction.approved "ok" 99)
    [decidedEvent
      { id := 3, organizer := 7, venue := 9, title := "Gala", description := "d",
        eventDate := "2025-02-02", eventTime := "19:00", expectedAttendees := 10,
        status := EventStatus.pending, price := 5, budget := 100, category := "Party",
        reviews := [],
        venueRequest := { status := VRStatus.pending, message := none, response := none,
                          requestedAt := 0, respondedAt := none } }
      VRAction.approved "ok" 99]
    rfl rfl (by decide) rfl

/-- C5: a bearer token whose signature does not match the process-wide
secret is rejected by the Verifier with `InvalidToken`; a token with a
valid signature whose expiry has passed is rejected with `TokenExpired`;
in neither case is an identity resolved. -/
theorem verifier_rejects_invalid_and_expired
    (users : List UserDoc) (secret now : Nat) (t : Token) :
    (t.sig ≠ tokenMac secret t.userId t.role t.exp →
      auth users secret now (some t) = .error AuthError.invalidToken ∧
      ∀ u, auth users secret now (some t) ≠ .ok u) ∧
    (t.sig = tokenMac secret t.userId t.role t.exp → t.exp ≤ now →
      auth users secret now (some t) = .error AuthError.tokenExpired ∧
      ∀ u, auth users secret now (some t) ≠ .ok u) := by
  constructor
  · intro hsig
    have h1 : auth users secret now (some t) = .error AuthError.invalidToken := by
      unfold auth jwtVerify
      simp [hsig]
    refine ⟨h1, fun u hu => ?_⟩
    rw [h1] at hu
    exact Except.noConfusion hu
  · intro hsig hexp
    have h1 : auth users secret now (some t) = .error AuthError.tokenExpired := by
      unfold auth jwtVerify
      simp [hsig, hexp]
    refine ⟨h1, fun u hu => ?_⟩
    rw [h1] at hu
    exact Except.noConfusion hu

/-- Witness for C5: a token with a forged signature is rejected as invalid;
a correctly signed token past its expiry is rejected as expired. -/
theorem verifier_rejects_invalid_and_expired_witness :
    auth [] 5 3 (some { userId := some 1, role := Role.user, exp := 10, sig := 0 }) =
      .error AuthError.invalidToken ∧
    auth [] 5 99 (some (jwtSign 5 (some 1) Role.user 10)) =
      .error AuthError.tokenExpired :=
  ⟨((verifier_rejects_invalid_and_expired [] 5 3
      { userId := some 1, role := Role.user, exp := 10, sig := 0 }).1 (by decide)).1,
   ((verifier_rejects_invalid_and_expired [] 5 99
      (jwtSign 5 (some 1) Role.user 10)).2 rfl (by decide)).1⟩

/-- C6: an event-creation payload missing any of the nine required fields
is rejected with `ValidationError` whose detail is exactly the list of
fields failing the presence check, and the rejection is independent of the
venue store — the required-field check runs before the venue-existence
check. -/
theorem required_field_check_rejects_first
    (p : EventPayload)
    (hmiss : p.title = none ∨ p.description = none ∨ p.venue = none ∨
      p.eventDate = none ∨ p.eventTime = none ∨ p.expectedAttendees = none ∨
      p.budget = none ∨ p.category = none ∨ p.price = none) :
    (∀ f, f ∈ missingFields p ↔ (f ∈ requiredFields ∧ fieldTruthy p f = false)) ∧
    ∀ (venues : List Venue) (events : List EventDoc) (organizer freshId now : Nat),
      createEventHandler venues events organizer freshId p now =
        { result := .error (CreateError.validationError (missingFields p))
          events := events } := by
  have hchar : ∀ f, f ∈ missingFields p ↔ (f ∈ requiredFields ∧ fieldTruthy p f = false) := by
    intro f
    unfold missingFields
    rw [List.mem_filter]
    simp
  have hne : missingFields p ≠ [] := by
    rcases hmiss with h | h | h | h | h | h | h | h | h
    · exact List.ne_nil_of_mem ((hchar "title").mpr
        ⟨by simp [requiredFields], by simp [fieldTruthy, h, optStrTruthy]⟩)
    · exact List.ne_nil_of_mem ((hchar "description").mpr
        ⟨by simp [requiredFields], by simp [fieldTruthy, h, optStrTruthy]⟩)
    · exact List.ne_nil_of_mem ((hchar "venue").mpr
        ⟨by simp [requiredFields], by simp [fieldTruthy, h, optIdTruthy]⟩)
    · exact List.ne_nil_of_mem ((hchar "eventDate").mpr
        ⟨by simp [requiredFields], by simp [fieldTruthy, h, optStrTruthy]⟩)
    · exact List.ne_nil_of_mem ((hchar "eventTime").mpr
        ⟨by simp [requiredFields], by simp [fieldTruthy, h, optStrTruthy]⟩)
    · exact List.ne_nil_of_mem ((hchar "expectedAttendees").mpr
        ⟨by simp [requiredFields], by simp [fieldTruthy, h, optNumTruthy]⟩)
    · exact List.ne_nil_of_mem ((hchar "budget").mpr
        ⟨by simp [requiredFields], by simp [fieldTruthy, h, optNumTruthy]⟩)
    · exact List.ne_nil_of_mem ((hchar "category").mpr
        ⟨by simp [requiredFields], by simp [fieldTruthy, h, optStrTruthy]⟩)
    · exact List.ne_nil_of_mem ((hchar "price").mpr
        ⟨by simp [requiredFields], by simp [fieldTruthy, h, optNumTruthy]⟩)
  refine ⟨hchar, ?_⟩
  intro venues events organizer freshId now
  simp [createEventHandler, hne]

/-- Witness for C6: a payload lacking description and price is rejected
with exactly those field names, against an empty venue store. -/
theorem required_field_check_rejects_first_witness :
    createEventHandler [] [] 1 2
      { title := some "T", description := none, venue := some 1,
        eventDate := some "2025-03-03", eventTime := some "12:00",
        expectedAttendees := some 5, budget := some 10,
        category := some "Party", price := none } 0 =
      { result := .error (CreateError.validationError ["description", "price"])
        events := [] } := by
  have h := (required_field_check_rejects_first
    { title := some "T", description := none, venue := some 1,
      eventDate := some "2025-03-03", eventTime := some "12:00",
      expectedAttendees := some 5, budget := some 10,
      category := some "Party", price := none }
    (Or.inr (Or.inl rfl))).2 [] [] 1 2 0
  exact h

/-- C7: appending a review with rating r to a venue whose review list held
ratings r1..rn stores `rating = (r1 + ... + rn + r) / (n + 1)` — the
arithmetic mean of all the venue's reviews' ratings. -/
theorem venue_rating_mean_after_append
    (venues : List Venue) (actor venueId : Nat) (rating : ℚ) (comment : String)
    (now : Nat) (venue : Venue)
    (hfind : findVenue venues venueId = some venue) :
    ∃ venue' venues',
      addVenueReviewHandler venues actor venueId rating comment now =
        { result := .ok venue', venues := venues' } ∧
      venue'.reviews = venue.reviews ++
        [{ user := actor, rating := rating, comment := comment, date := now }] ∧
      venue'.rating =
        ((venue.reviews.map Review.rating).sum + rating) /
          ((venue.reviews.length : ℚ) + 1) := by
  unfold addVenueReviewHandler
  simp only [hfind]
  refine ⟨_, _, rfl, rfl, ?_⟩
  rw [foldl_rating_sum]
  simp [List.map_append, List.sum_append]

/-- Witness for C7: appending a rating-2 review to a venue with one
rating-4 review stores the mean of the two ratings. -/
theorem venue_rating_mean_after_append_witness :
    ∃ venue' venues',
      addVenueReviewHandler
        [{ id := 1, owner := 2, name := "Hall", address := "A", capacity := 10,
           pricePerDay := 5, availability := true, rating := 4,
           reviews := [{ user := 8, rating := 4, comment := "good", date := 0 }] }]
        9 1 2 "meh" 7 =
        { result := .ok venue', venues := venues' } ∧
      venue'.reviews =
        [{ user := 8, rating := 4, comment := "good", date := 0 }] ++
          [{ user := 9, rating := 2, comment := "meh", date := 7 }] ∧
      venue'.rating =
        ((([{ user := 8, rating := 4, comment := "good", date := 0 }] : List Review).map
            Review.rating).sum + 2) /
          ((([{ user := 8, rating := 4, comment := "good", date := 0 }] : List Review).length : ℚ) + 1) :=
  venue_rating_mean_after_append
    [{ id := 1, owner := 2, name := "Hall", address := "A", capacity := 10,
       pricePerDay := 5, availability := true, rating := 4,
       reviews := [{ user := 8, rating := 4, comment := "good", date := 0 }] }]
    9 1 2 "meh" 7
    { id := 1, owner := 2, name := "Hall", address := "A", capacity := 10,
      pricePerDay := 5, availability := true, rating := 4,
      reviews := [{ user := 8, rating := 4, comment := "good", date := 0 }] }
    rfl

/-- C8: for payloads passing the required-field check, the route-level
venue-existence, availability, capacity and budget checks of the
`POST /events` handler accept exactly when the Event schema's pre-save hook
accepts the document built from the payload, against the same venue store:
the two validations are the same predicate. -/
theorem route_and_hook_checks_agree
    (venues : List Venue) (organizer freshId : Nat) (p : EventPayload) (now : Nat)
    (hmiss : missingFields p = []) :
    (exAccepts (routeVenueChecks venues p) = true ↔
      exAccepts (eventPreSaveHook venues (docOfPayload organizer freshId p now)) = true) := by
  obtain ⟨vid, hvid⟩ := venue_some_of_missing_nil p hmiss
  obtain ⟨ea, hea, _⟩ := expectedAttendees_some_of_missing_nil p hmiss
  obtain ⟨b, hb, _⟩ := budget_some_of_missing_nil p hmiss
  unfold routeVenueChecks eventPreSaveHook docOfPayload
  simp only [hvid, hea, hb, Option.getD_some, jsNumGt, jsNumLt]
  cases hfv : findVenue venues vid with
  | none => simp [exAccepts]
  | some venue =>
    by_cases hav : venue.availability = false
    · simp [hav, exAccepts]
    · by_cases hcap : ea > venue.capacity
      · simp [hav, hcap, exAccepts]
      · by_cases hbud : b < venue.pricePerDay * eventDuration
        · simp [hav, hcap, hbud, exAccepts]
        · simp [hav, hcap, hbud, exAccepts]

/-- Witness for C8: on the spec's scenario payload (all fields present) and
a one-venue store, the route checks and the hook agree. -/
theorem route_and_hook_checks_agree_witness :
    (exAccepts (routeVenueChecks
      [{ id := 1, owner := 2, name := "Hall", address := "Main St", capacity := 100,
         pricePerDay := 400, availability := true, rating := 0, reviews := [] }]
      { title := some "Expo", description := some "Big expo", venue := some 1,
        eventDate := some "2025-01-01", eventTime := some "10:00",
        expectedAttendees := some 50, budget := some 500,
        category := some "Conference", price := some 20 }) = true ↔
    exAccepts (eventPreSaveHook
      [{ id := 1, owner := 2, name := "Hall", address := "Main St", capacity := 100,
         pricePerDay := 400, availability := true, rating := 0, reviews := [] }]
      (docOfPayload 7 42
        { title := some "Expo", description := some "Big expo", venue := some 1,
          eventDate := some "2025-01-01", eventTime := some "10:00",
          expectedAttendees := some 50, budget := some 500,
          category := some "Conference", price := some 20 } 0)) = true) :=
  route_and_hook_checks_agree
    [{ id := 1, owner := 2, name := "Hall", address := "Main St", capacity := 100,
       pricePerDay := 400, availability := true, rating := 0, reviews := [] }]
    7 42
    { title := some "Expo", description := some "Big expo", venue := some 1,
      eventDate := some "2025-01-01", eventTime := some "10:00",
      expectedAttendees := some 50, budget := some 500,
      category := some "Conference", price := some 20 }
    0 rfl

/-- C9: registering a fresh user and then logging in with the same
credentials both succeed, and the token login returns verifies under the
process-wide secret and decodes to the registered user's identifier. -/
theorem register_login_roundtrip
    (users : List UserDoc) (freshId : Nat) (name email password : String)
    (role : Role) (secret : Nat) (now now2 : Nat)
    (hfree : users.find? (fun u => u.email == email) = none)
    (hemail : email ≠ "") (hpw : password ≠ "") :
    ∃ users' tok u,
      register users freshId name email password role secret now =
        .ok (users', tok, u) ∧
      u.id = freshId ∧
      login users' email password secret now2 =
        .ok (jwtSign secret (some u.id) u.role (now2 + sevenDays), u) ∧
      jwtVerify secret (jwtSign secret (some u.id) u.role (now2 + sevenDays)) now2 =
        .ok (jwtSign secret (some u.id) u.role (now2 + sevenDays)) ∧
      (jwtSign secret (some u.id) u.role (now2 + sevenDays)).userId = some u.id := by
  set u : UserDoc :=
    { id := freshId, name := name, email := email
      password := bcryptHash password, role := role, venues := [] } with hu
  refine ⟨users ++ [u], jwtSign secret (some freshId) role (now + sevenDays), u,
    ?_, rfl, ?_, ?_, rfl⟩
  · unfold register
    rw [hfree]
  · have hfindu : (users ++ [u]).find? (fun v => v.email == email) = some u :=
      find?_append_of_none _ users u hfree (by simp [hu])
    unfold login
    rw [if_neg (by simp [hemail, hpw])]
    rw [hfindu]
    simp [hu, bcryptCompare]
  · have hne : ¬ (now2 + sevenDays ≤ now2) := by unfold sevenDays; omega
    unfold jwtVerify
    simp [jwtSign, hne]

/-- Witness for C9: registering `n@x.io` into an empty store and logging in
with the same credentials round-trips; the login token decodes to id 1. -/
theorem register_login_roundtrip_witness :
    ∃ users' tok u,
      register [] 1 "N" "n@x.io" "pw" Role.organizer 5 0 =
        .ok (users', tok, u) ∧
      u.id = 1 ∧
      login users' "n@x.io" "pw" 5 10 =
        .ok (jwtSign 5 (some u.id) u.role (10 + sevenDays), u) ∧
      jwtVerify 5 (jwtSign 5 (some u.id) u.role (10 + sevenDays)) 10 =
        .ok (jwtSign 5 (some u.id) u.role (10 + sevenDays)) ∧
      (jwtSign 5 (some u.id) u.role (10 + sevenDays)).userId = some u.id :=
  register_login_roundtrip [] 1 "N" "n@x.io" "pw" Role.organizer 5 0 10
    rfl (by decide) (by decide)

/-- C10: every Event save path — direct status update, event-review append,
venue-request decision, and creation — re-runs the pre-save venue checks
against the venue's current state; when the hook rejects the document about
to be saved, the operation fails and the event store is unchanged. -/
theorem every_event_save_reruns_checks
    (venues : List Venue) (events : List EventDoc) :
    (∀ (actor : UserDoc) (eventId : Nat) (status : EventStatus)
        (event : EventDoc) (venue : Venue) (err : HookError),
      findEvent events eventId = some event →
      findVenue venues event.venue = some venue →
      venue.owner = actor.id →
      eventPreSaveHook venues { event with status := status } = .error err →
      updateEventStatusHandler venues events actor eventId status =
        { result := .error ApiError.internal, events := events }) ∧
    (∀ (actor eventId : Nat) (rating : ℚ) (comment : String) (now : Nat)
        (event : EventDoc) (err : HookError),
      findEvent events eventId = some event →
      eventPreSaveHook venues
        { event with reviews := event.reviews ++
            [{ user := actor, rating := rating, comment := comment, date := now }] } =
        .error err →
      addEventReviewHandler venues events actor eventId rating comment now =
        { result := .error ApiError.internal, events := events }) ∧
    (∀ (actor : UserDoc) (eventId : Nat) (action : VRAction) (msg : String)
        (now : Nat) (event : EventDoc) (err : HookError),
      findEvent events eventId = some event →
      actor.role = Role.venue_owner →
      event.venue ∈ actor.venues →
      eventPreSaveHook venues (decidedEvent event action msg now) = .error err →
      venueRequestHandler venues events actor eventId action msg now =
        { result := .error ApiError.internal, events := events }) ∧
    (∀ (organizer freshId : Nat) (p : EventPayload) (now : Nat) (err : HookError),
      eventPreSaveHook venues (docOfPayload organizer freshId p now) = .error err →
      ∃ e, createEventHandler venues events organizer freshId p now =
        { result := .error e, events := events }) := by
  refine ⟨?_, ?_, ?_, ?_⟩
  · intro actor eventId status event venue err hfe hfv hown hhook
    unfold updateEventStatusHandler
    simp only [hfe, hfv]
    rw [if_neg (by simp [hown])]
    simp [saveEvent, hhook]
  · intro actor eventId rating comment now event err hfe hhook
    unfold addEventReviewHandler
    simp only [hfe]
    simp [saveEvent, hhook]
  · intro actor eventId action msg now event err hfe hrole hown hhook
    unfold venueRequestHandler
    simp only [hfe]
    rw [if_neg (by push_neg; exact ⟨hrole, hown⟩)]
    simp [saveEvent, hhook]
  · intro organizer freshId p now err hhook
    by_cases hm : missingFields p = []
    · cases hrc : routeVenueChecks venues p with
      | error e =>
        exact ⟨e, by simp [createEventHandler, hm, hrc]⟩
      | ok v =>
        exact ⟨CreateError.serverError err,
          by simp [createEventHandler, hm, hrc, saveEvent, hhook]⟩
    · exact ⟨CreateError.validationError (missingFields p),
        by simp [createEventHandler, hm]⟩

/-- Witness for C10: the spec's example — approving a venue request for an
event whose venue has since been marked unavailable — fails with a 500 and
persists nothing. -/
theorem every_event_save_reruns_checks_witness :
    venueRequestHandler
      [{ id := 9, owner := 11, name := "Hall", address := "Main St", capacity := 100,
         pricePerDay := 40, availability := false, rating := 0, reviews := [] }]
      [{ id := 3, organizer := 7, venue := 9, title := "Gala", description := "d",
         eventDate := "2025-02-02", eventTime := "19:00", expectedAttendees := 10,
         status := EventStatus.pending, price := 5, budget := 100, category := "Party",
         reviews := [],
         venueRequest := { status := VRStatus.pending, message := none, response := none,
                           requestedAt := 0, respondedAt := none } }]
      { id := 11, name := "A", email := "a@x.io", password := "h",
        role := Role.venue_owner, venues := [9] }
      3 VRAction.approved "ok" 99 =
      { result := .error ApiError.internal
        events :=
          [{ id := 3, organizer := 7, venue := 9, title := "Gala", description := "d",
             eventDate := "2025-02-02", eventTime := "19:00", expectedAttendees := 10,
             status := EventStatus.pending, price := 5, budget := 100, category := "Party",
             reviews := [],
             venueRequest := { status := VRStatus.pending, message := none, response := none,
                               requestedAt := 0, respondedAt := none } }] } :=
  (every_event_save_reruns_checks
    [{ id := 9, owner := 11, name := "Hall", address := "Main St", capacity := 100,
       pricePerDay := 40, availability := false, rating := 0, reviews := [] }]
    [{ id := 3, organizer := 7, venue := 9, title := "Gala", description := "d",
       eventDate := "2025-02-02", eventTime := "19:00", expectedAttendees := 10,
       status := EventStatus.pending, price := 5, budget := 100, category := "Party",
       reviews := [],
       venueRequest := { status := VRStatus.pending, message := none, response := none,
                         requestedAt := 0, respondedAt := none } }]).2.2.1
    { id := 11, name := "A", email := "a@x.io", password := "h",
      role := Role.venue_owner, venues := [9] }
    3 VRAction.approved "ok" 99
    { id := 3, organizer := 7, venue := 9, title := "Gala", description := "d",
      eventDate := "2025-02-02", eventTime := "19:00", expectedAttendees := 10,
      status := EventStatus.pending, price := 5, budget := 100, category := "Party",
      reviews := [],
      venueRequest := { status := VRStatus.pending, message := none, response := none,
                        requestedAt := 0, respondedAt := none } }
    HookError.venueNotAvailable rfl rfl (by decide) rfl

end Eventify
